import Mathlib

/-!
Verification development for the document-processor service of the
AI-driven application-intake platform.  Each Python function relevant to the
checked properties is shallowly embedded as an executable Lean definition;
machine floats are modelled as exact rationals, Python exceptions as
`Except`, and Python dicts as association lists with in-place update.
-/

/-! ## Generic string helpers (Python `in`, `str.lower`, char classes) -/

/-- Python `needle in hay` test on character lists: some contiguous
sublist of `hay` equals `needle`. -/
def isPrefixChars : List Char → List Char → Bool
  | [], _ => true
  | _ :: _, [] => false
  | a :: as, b :: bs => a == b && isPrefixChars as bs

/-- Substring search over character lists (`needle` occurs in `hay`). -/
def containsChars (needle : List Char) : List Char → Bool
  | [] => needle.isEmpty
  | c :: t => isPrefixChars needle (c :: t) || containsChars needle t

/-- Python `needle in hay` for strings. -/
def pyIn (needle hay : String) : Bool :=
  containsChars needle.toList hay.toList

/-- Python `str.lower()` (ASCII case folding suffices for the data here). -/
def pyLower (s : String) : String :=
  ⟨s.toList.map Char.toLower⟩

/-! ## Routing-number checksum
`VoidedCheckProcessor._validate_routing_number` in
`processors/voided_check_processor.py`: converts each character to a digit
(`ValueError` → `False`), then checks the weighted ABA checksum; a short
string raises `IndexError`, also returning `False`. -/

/-- `int(d)` for a single character: digit value, or failure. -/
def charDigit? (c : Char) : Option Nat :=
  if c.isDigit then some (c.toNat - 48) else none

/-- The list comprehension converting every character to `int(d)`:
failure of any conversion is the `ValueError` branch. -/
def digitsOf : List Char → Option (List Nat)
  | [] => some []
  | c :: t =>
    match charDigit? c, digitsOf t with
    | some d, some ds => some (d :: ds)
    | _, _ => none

/-- Embedding of `VoidedCheckProcessor._validate_routing_number`. -/
def validate_routing_number (s : String) : Bool :=
  match digitsOf s.toList with
  | none => false
  | some ds =>
    if 9 ≤ ds.length then
      (3 * (ds.getD 0 0 + ds.getD 3 0 + ds.getD 6 0) +
       7 * (ds.getD 1 0 + ds.getD 4 0 + ds.getD 7 0) +
       (ds.getD 2 0 + ds.getD 5 0 + ds.getD 8 0)) % 10 == 0
    else false

/-! ## OCR character-confusion correction
`ERROR_PATTERNS` in `core/ocr_engine.py`: `[oO] → 0`, `[iIl] → 1`,
`[sS] → 5`; `extract_text` applies the three `re.sub` passes in dictionary
order to the whole extracted text.  Each pattern is a single-character
class, so each pass is a character map. -/

/-- The `re.sub` pass for the class `[oO]`, replacement `0`, as a character map. -/
def subO0 (c : Char) : Char :=
  if c = 'o' ∨ c = 'O' then '0' else c

/-- The `re.sub` pass for the class `[iIl]`, replacement `1`, as a character map. -/
def subI1 (c : Char) : Char :=
  if c = 'i' ∨ c = 'I' ∨ c = 'l' then '1' else c

/-- The `re.sub` pass for the class `[sS]`, replacement `5`, as a character map. -/
def subS5 (c : Char) : Char :=
  if c = 's' ∨ c = 'S' then '5' else c

/-- The three substitution passes of `extract_text` (and
`_apply_error_correction`), in source order. -/
def correctChars (l : List Char) : List Char :=
  ((l.map subO0).map subI1).map subS5

/-- Error-pattern correction applied to a whole string. -/
def applyErrorCorrection (s : String) : String :=
  ⟨correctChars s.toList⟩

/-- The combined per-character substitution the three passes amount to. -/
def confusionSub (c : Char) : Char :=
  if c = 'o' ∨ c = 'O' then '0'
  else if c = 'i' ∨ c = 'I' ∨ c = 'l' then '1'
  else if c = 's' ∨ c = 'S' then '5'
  else c

/-! ## Document lifecycle (`models/document.py`)
`Document.update_status` validates only that `new_status` is a known status
value; it then applies the update and appends an audit entry.  Timestamps
are abstracted to a tick counter supplied by the caller (`datetime.now`). -/

/-- Modelled from the spec: the status enumeration `APPLICATION_STATUS`
lives in `shared/constants`, which is outside the sources of this service; the
spec fixes its values as `PENDING, PROCESSING, COMPLETED, FAILED` (string
valued, so members compare equal to their string values). -/
def APPLICATION_STATUS_VALUES : List String :=
  ["PENDING", "PROCESSING", "COMPLETED", "FAILED"]

/-- One entry of `Document.audit_log` as appended by `update_status`. -/
structure AuditEntry where
  timestamp : Nat
  action : String
  old_value : String
  new_value : String
  reason : Option String
  user_id : Option String
deriving DecidableEq, Repr

/-- The slice of `Document` state read and written by `update_status`. -/
structure DocumentState where
  status : String
  updated_at : Nat
  processed_at : Option Nat
  failure_reason : Option String
  audit_log : List AuditEntry
deriving DecidableEq, Repr

/-- Embedding of `Document.update_status`: reject unknown status values
with `ValueError`, otherwise set the new status unconditionally, update
timestamps/failure reason, and append an audit entry. -/
def update_status (doc : DocumentState) (new_status : String)
    (reason : Option String) (user_id : Option String) (now : Nat) :
    Except String DocumentState :=
  if ¬ APPLICATION_STATUS_VALUES.contains new_status then
    Except.error ("ValueError: Invalid status: " ++ new_status)
  else
    let old_status := doc.status
    let doc1 := { doc with status := new_status, updated_at := now }
    let doc2 :=
      if new_status = "COMPLETED" then { doc1 with processed_at := some now }
      else if new_status = "FAILED" then { doc1 with failure_reason := reason }
      else doc1
    Except.ok { doc2 with audit_log := doc2.audit_log ++
      [⟨now, "status_update", old_status, new_status, reason, user_id⟩] }

/-- A document that has already reached the terminal `COMPLETED` status. -/
def completedDoc : DocumentState :=
  ⟨"COMPLETED", 0, some 0, none, []⟩

/-! ## Voided-check field validation (`processors/voided_check_processor.py`)
`validate_fields` first checks the required fields
`routing_number, account_number, bank_name` and returns at once if any is
missing; only then does it run the per-field structural checks, collecting
their errors in a list. -/

/-- The keys of `extracted_data` that `validate_fields` reads. -/
structure ExtractedData where
  routing_number : Option String
  account_number : Option String
  bank_name : Option String
deriving DecidableEq, Repr

/-- `re.match` of the anchored pattern `^[0-9]\x7b9\x7d$`: exactly nine ASCII digits. -/
def matchRoutingFormat (s : String) : Bool :=
  s.toList.length == 9 && s.toList.all Char.isDigit

/-- `re.match` of the anchored pattern `^[0-9]\x7b8,17\x7d$`: eight to seventeen ASCII digits. -/
def matchAccountFormat (s : String) : Bool :=
  8 ≤ s.toList.length && s.toList.length ≤ 17 && s.toList.all Char.isDigit

/-- The character class of the bank-name pattern:
letters, whitespace, ampersand, apostrophe: the class lists `A-Za-z`,
backslash-s, and the two-character range from `&` (38) to the apostrophe (39). -/
def isBankClass (c : Char) : Bool :=
  c.isAlpha || c.isWhitespace || c = '&' || c = Char.ofNat 39

/-- The alternatives of the bank-name pattern suffix group. -/
def bankAlts : List String :=
  ["Bank", "Credit Union", "Financial", "N.A.", "National Association"]

/-- Does the remaining text start with one of the suffix alternatives? -/
def startsWithAlt (l : List Char) : Bool :=
  bankAlts.any (fun a => isPrefixChars a.toList l)

/-- After at least one class character has been consumed: stop and read a
suffix alternative, or consume a further class character. -/
def bankGo : List Char → Bool
  | [] => false
  | c :: t => startsWithAlt (c :: t) || (isBankClass c && bankGo t)

/-- `re.match` of the bank-name pattern
the class above repeated at least once, followed by one of the suffix
alternatives `Bank`, `Credit Union`, `Financial`, `N.A.`,
`National Association`; a match anchored at the start of the string. -/
def matchBankName (s : String) : Bool :=
  match s.toList with
  | [] => false
  | c :: t => isBankClass c && bankGo t

/-- The message returned by `validate_fields`, by construction site (the
Python code builds these by string formatting). -/
inductive VMessage where
  | missingRequired (fields : List String)
  | success
  | failed (errors : List String)
deriving DecidableEq, Repr

/-- The result tuple and `validation_results` content of
`validate_fields`. -/
structure ValidationOutcome where
  valid : Bool
  message : VMessage
  fields_validated : List String
  validation_errors : List String
deriving DecidableEq, Repr

/-- Required fields of a voided check (`REQUIRED_FIELDS`). -/
def REQUIRED_FIELDS : List String :=
  ["routing_number", "account_number", "bank_name"]

/-- `field in extracted_data` for the modelled keys. -/
def hasField (d : ExtractedData) : String → Bool
  | "routing_number" => d.routing_number.isSome
  | "account_number" => d.account_number.isSome
  | "bank_name" => d.bank_name.isSome
  | _ => false

/-- Embedding of `VoidedCheckProcessor.validate_fields`. -/
def validate_fields (d : ExtractedData) : ValidationOutcome :=
  let missing := REQUIRED_FIELDS.filter (fun f => ¬ hasField d f)
  if ¬ missing.isEmpty then
    ⟨false, VMessage.missingRequired missing, [], []⟩
  else
    let errs0 : List String := []
    let fv0 : List String := []
    let (errs1, fv1) :=
      match d.routing_number with
      | none => (errs0, fv0)
      | some r =>
        (if ¬ matchRoutingFormat r then errs0 ++ ["Invalid routing number format"]
         else if ¬ validate_routing_number r then errs0 ++ ["Invalid routing number checksum"]
         else errs0,
         fv0 ++ ["routing_number"])
    let (errs2, fv2) :=
      match d.account_number with
      | none => (errs1, fv1)
      | some a =>
        (if ¬ matchAccountFormat a then errs1 ++ ["Invalid account number format"] else errs1,
         fv1 ++ ["account_number"])
    let (errs3, fv3) :=
      match d.bank_name with
      | none => (errs2, fv2)
      | some b =>
        (if ¬ matchBankName b then errs2 ++ ["Invalid bank name format"] else errs2,
         fv2 ++ ["bank_name"])
    if errs3.isEmpty then ⟨true, VMessage.success, fv3, errs3⟩
    else ⟨false, VMessage.failed errs3, fv3, errs3⟩

/-- The structural failures of the routing-number field alone, in the
order checked by the code: a format failure, else a checksum failure,
else nothing (closed form for the error accumulation). -/
def routingErr (r : String) : List String :=
  if ¬ matchRoutingFormat r then ["Invalid routing number format"]
  else if ¬ validate_routing_number r then ["Invalid routing number checksum"]
  else []

/-- The structural failures of the account-number field alone. -/
def accountErr (a : String) : List String :=
  if ¬ matchAccountFormat a then ["Invalid account number format"] else []

/-- The structural failures of the bank-name field alone. -/
def bankErr (b : String) : List String :=
  if ¬ matchBankName b then ["Invalid bank name format"] else []

/-- Rendering of a validation message to the reason string passed to
`update_status` (the Python string formatting, abstracted to an
injective rendering of the message content). -/
def vmessageText : VMessage → String
  | VMessage.missingRequired fs => "Missing required fields: " ++ String.intercalate ", " fs
  | VMessage.success => "Validation successful"
  | VMessage.failed errs => "Validation failed: " ++ String.intercalate ", " errs

/-- The status-marking step of `VoidedCheckProcessor.process` after field
validation: on a valid outcome the document is completed, otherwise it is
failed with the validation message as reason. -/
def process_mark_status (doc : DocumentState) (vo : ValidationOutcome)
    (now : Nat) : Except String DocumentState :=
  if vo.valid then update_status doc "COMPLETED" none none now
  else update_status doc "FAILED" (some (vmessageText vo.message)) none now

/-! ## Sanitizer (`utils/validation.py::sanitize_sensitive_data`)
Python dict values that occur in this flow, and the dict itself as an
association list whose assignment updates in place (as Python dict
assignment does) or appends a fresh key at the end. -/

/-- Values appearing in the sanitizer flow: plain strings, Fernet
ciphertexts, the audit-entry list added under `_audit` (field names whose
values were encrypted; timestamps abstracted away), and the
`_sanitized_at` timestamp string. -/
inductive PyVal where
  | str : String → PyVal
  | encStr : String → PyVal
  | auditLog : List String → PyVal
  | timestampStr : PyVal
deriving DecidableEq, Repr

/-- Python `str(value)` as used on the values fed to `fernet.encrypt`. -/
def pyStr : PyVal → String
  | PyVal.str s => s
  | PyVal.encStr s => s
  | PyVal.auditLog _ => "[audit]"
  | PyVal.timestampStr => "[timestamp]"

/-- Python dict assignment `d[k] = v` on an association list: update the
existing binding in place, or append a new one. -/
def setKey : List (String × PyVal) → String → PyVal → List (String × PyVal)
  | [], k, v => [(k, v)]
  | (k0, v0) :: t, k, v =>
    if k0 = k then (k0, v) :: t else (k0, v0) :: setKey t k v

/-- The fixed list of sensitive-field substrings. -/
def SENSITIVE_SUBSTRINGS : List String :=
  ["ssn", "ein", "account", "routing"]

/-- `any(pattern in field.lower() for pattern in [...])`. -/
def isSensitiveField (f : String) : Bool :=
  SENSITIVE_SUBSTRINGS.any (fun p => pyIn p (pyLower f))

/-- One iteration of the sanitizer loop over `data.items()`: encrypt a
sensitive field into the output dict and record it in the audit list, or
copy the field through unchanged. -/
def sanitizeStep (enc : String → String)
    (acc : List (String × PyVal) × List String) (fv : String × PyVal) :
    List (String × PyVal) × List String :=
  if isSensitiveField fv.1 then
    (setKey acc.1 fv.1 (PyVal.encStr (enc (pyStr fv.2))), acc.2 ++ [fv.1])
  else
    (setKey acc.1 fv.1 fv.2, acc.2)

/-- The value the sanitizer loop stores for one input field. -/
def sanVal (enc : String → String) (fv : String × PyVal) : PyVal :=
  if isSensitiveField fv.1 then PyVal.encStr (enc (pyStr fv.2)) else fv.2

/-- Embedding of `sanitize_sensitive_data`: `enc` is the Fernet
encryption obtained from the external key service.  The loop fills a fresh
dict field by field (encrypting sensitive ones and recording them in the
audit list), then assigns the `_audit` and `_sanitized_at` keys. -/
def sanitize_sensitive_data (enc : String → String)
    (data : List (String × PyVal)) : List (String × PyVal) :=
  let step := data.foldl (sanitizeStep enc) ([], [])
  let out := setKey step.1 "_audit" (PyVal.auditLog step.2)
  setKey out "_sanitized_at" PyVal.timestampStr

/-! ## OCR run confidence (`core/ocr_engine.py::extract_text`)
The backend (tesseract TSV data) reports one confidence per token and
marks non-word tokens with the sentinel value `-1`; `extract_text` keeps
the entries different from the sentinel and returns their `np.mean`, or
`0.0` when none remain.  A token confidence is modelled as `Option ℚ`,
`none` being the sentinel filtered out by the comparison with `-1`. -/

/-- Embedding of the confidence computation of `extract_text`. -/
def extract_confidence (confs : List (Option ℚ)) : ℚ :=
  let kept := confs.filterMap id
  if kept.isEmpty then 0 else kept.sum / kept.length

/-- Written from the words of the claim (refinement target): the
arithmetic mean of all positive defined per-token confidences; `0` if no
defined positive confidence remains. -/
def spec_positive_mean (confs : List (Option ℚ)) : ℚ :=
  let pos := (confs.filterMap id).filter (fun c => decide (0 < c))
  if pos.isEmpty then 0 else pos.sum / pos.length

/-- Written from the words of the amended claim (refinement target): the
arithmetic mean of all defined per-token confidences, zero or not; `0` if
none is defined. -/
def spec_defined_mean (confs : List (Option ℚ)) : ℚ :=
  let ds := confs.filterMap id
  if ds = [] then 0 else ds.sum / ds.length

/-! ## Field confidence (`core/ocr_engine.py`)
`_calculate_field_confidence` starts from the run confidence and, under
strict validation, multiplies by `0.9` for each `ERROR_PATTERNS` class
found in the matched substring and by `0.85` if a character outside
`[A-Za-z0-9\s\-\.]` occurs, then rounds to two decimal places
(`round(base_confidence, 2)`).  `extract_structured_fields` marks the
field validated iff this value reaches `self._confidence_threshold`. -/

/-- Membership of the `[oO]` confusion class somewhere in the string. -/
def errPatO (s : String) : Bool :=
  s.toList.any (fun c => c = 'o' ∨ c = 'O')

/-- Membership of the `[iIl]` confusion class somewhere in the string. -/
def errPatI (s : String) : Bool :=
  s.toList.any (fun c => c = 'i' ∨ c = 'I' ∨ c = 'l')

/-- Membership of the `[sS]` confusion class somewhere in the string. -/
def errPatS (s : String) : Bool :=
  s.toList.any (fun c => c = 's' ∨ c = 'S')

/-- A character outside the allowed class `[A-Za-z0-9\s\-\.]`. -/
def hasUnusualChar (s : String) : Bool :=
  s.toList.any (fun c =>
    ¬ (c.isAlpha ∨ c.isDigit ∨ c.isWhitespace ∨ c = '-' ∨ c = '.'))

/-- Round to the nearest integer, ties to even (the rounding of Python
`round`; the machine-float representation error is not modelled). -/
def roundHalfEven (q : ℚ) : ℤ :=
  let f := ⌊q⌋
  let r := q - f
  if r < 1/2 then f
  else if 1/2 < r then f + 1
  else if f % 2 = 0 then f else f + 1

/-- Python `round(x, 2)` on the rational model of the float. -/
def round2 (q : ℚ) : ℚ :=
  (roundHalfEven (q * 100) : ℚ) / 100

/-- Embedding of `OCREngine._calculate_field_confidence`. -/
def calculate_field_confidence (field_value : String)
    (overall_confidence : ℚ) (strict : Bool) : ℚ :=
  let b0 := overall_confidence
  if strict then
    let b1 := if errPatO field_value then b0 * (9/10) else b0
    let b2 := if errPatI field_value then b1 * (9/10) else b1
    let b3 := if errPatS field_value then b2 * (9/10) else b2
    let b4 := if hasUnusualChar field_value then b3 * (17/20) else b3
    round2 b4
  else round2 b0

/-- The `validated` flag computed by `extract_structured_fields` for a
matched field: `field_confidence >= self._confidence_threshold`. -/
def field_validated (field_value : String) (overall_confidence : ℚ)
    (threshold : ℚ) : Bool :=
  threshold ≤ calculate_field_confidence field_value overall_confidence true

/-- Number of confusion-pattern classes detected in the substring. -/
def confusionClassCount (s : String) : ℕ :=
  (if errPatO s then 1 else 0) + (if errPatI s then 1 else 0) +
    (if errPatS s then 1 else 0)

/-! ## Document classifier (`core/document_classifier.py`)
`DOCUMENT_PATTERNS`, feature extraction, pattern scoring and the ensemble
decision of `classify_document`.  The external models and libraries are
parameters of the embedding: the OCR engine, the cv2 layout analysis used
by `_extract_layout_features`, the primary (ML) model and the optional
secondary (DL) model are opaque functions carried in a classifier state. -/

/-- One entry of `DOCUMENT_PATTERNS`. -/
structure DocPattern where
  name : String
  key_phrases : List String
  layout : String
  content_ratio : ℚ
deriving Repr

/-- The `DOCUMENT_PATTERNS` constant (insertion order preserved). -/
def DOCUMENT_PATTERNS : List DocPattern :=
  [⟨"BANK_STATEMENT", ["account", "balance", "transaction", "statement", "deposit"],
    "tabular", 7/10⟩,
   ⟨"ISO_APPLICATION", ["merchant", "business", "application", "owner", "ein"],
    "form", 3/5⟩,
   ⟨"VOIDED_CHECK", ["pay to", "routing", "account", "void"],
    "check", 2/5⟩]

/-- Key-phrase hit ratio of one document type:
`sum(1 for phrase in key_phrases if phrase.lower() in text.lower()) / len(key_phrases)`. -/
def phrase_ratio (p : DocPattern) (text : String) : ℚ :=
  ((p.key_phrases.filter (fun ph => pyIn (pyLower ph) (pyLower text))).length : ℚ)
    / (p.key_phrases.length : ℚ)

/-- Binary layout-keyword score: `1.0 if layout in text.lower() else 0.0`. -/
def layout_score (p : DocPattern) (text : String) : ℚ :=
  if pyIn p.layout (pyLower text) then 1 else 0

/-- Clamped content-length ratio:
`min(len(text) / (1000 * content_ratio), 1.0)`. -/
def content_ratio_score (p : DocPattern) (text : String) : ℚ :=
  min ((text.toList.length : ℚ) / (1000 * p.content_ratio)) 1

/-- Embedding of `DocumentClassifier._extract_content_features`: the three
scores for every document type, flattened in pattern order. -/
def extract_content_features (text : String) : List ℚ :=
  (DOCUMENT_PATTERNS.map (fun p =>
    [phrase_ratio p text, layout_score p text, content_ratio_score p text])).flatten

/-- The cv2 results consumed by `_extract_layout_features`: line-segment
counts from the two Hough passes and the grayscale mean and standard
deviation.  `none` models the library raising inside the helper. -/
structure LayoutRaw where
  hcount : ℕ
  vcount : ℕ
  meanGray : ℚ
  stdGray : ℚ
deriving Repr

/-- Embedding of `DocumentClassifier._extract_layout_features`: on an
internal failure the helper catches the exception and degrades to
`[0.0] * 4`. -/
def extract_layout_features : Option LayoutRaw → List ℚ
  | some r => [(r.hcount : ℚ), (r.vcount : ℚ), r.meanGray / 255, r.stdGray / 255]
  | none => [0, 0, 0, 0]

/-- `len(text.split())`: whitespace-separated word count. -/
def wordCount (t : String) : ℕ :=
  ((t.split Char.isWhitespace).filter (fun s => ¬ s.isEmpty)).length

/-- Embedding of `DocumentClassifier.extract_features` for an image of
`h × w` pixels: text-density, size and layout and content features.  A
zero-area image makes `len(text) / (image.shape[0] * image.shape[1])`
raise `ZeroDivisionError`, which the method logs and re-raises. -/
def extract_features (h w : ℕ) (text : String) (layout : Option LayoutRaw) :
    Except String (List ℚ) :=
  if h * w = 0 then Except.error "ZeroDivisionError"
  else Except.ok
    ([(wordCount text : ℚ) / 1000,
      (text.toList.length : ℚ) / ((h : ℚ) * (w : ℚ)),
      (w : ℚ) / 1000,
      (h : ℚ) / 1000,
      (w : ℚ) / (h : ℚ)]
      ++ extract_layout_features layout
      ++ extract_content_features text)

/-- `np.argmax` over a probability list: index of the first maximum. -/
def argmaxAux : List ℚ → ℕ → ℕ → ℚ → ℕ
  | [], _, best, _ => best
  | x :: t, i, best, bv =>
    if bv < x then argmaxAux t (i + 1) i x else argmaxAux t (i + 1) best bv

/-- `np.argmax` (first index attaining the maximum; `0` on `[]`). -/
def argmax : List ℚ → ℕ
  | [] => 0
  | x :: t => argmaxAux t 1 0 x

/-- Embedding of `DocumentClassifier._validate_patterns`: per type, the
`np.mean` of the three scores; the overall pattern confidence is the
maximum over the types. -/
def pattern_confidence (text : String) : ℚ :=
  match DOCUMENT_PATTERNS.map (fun p =>
      (phrase_ratio p text + layout_score p text + content_ratio_score p text) / 3) with
  | [] => 0
  | x :: t => t.foldl max x

/-- The global `CONFIDENCE_THRESHOLD` of `document_classifier.py`. -/
def CLASSIFIER_CONFIDENCE_THRESHOLD : ℚ := 19/20

/-- The global `ERROR_THRESHOLD` of `document_classifier.py`. -/
def CLASSIFIER_ERROR_THRESHOLD : ℚ := 1/20

/-- The ensemble combination of `classify_document`: weights
`ml_model = 0.4`, `dl_model = 0.3 if dl present else 0.0`,
`pattern_matching = 0.3 if dl present else 0.6`; the final confidence is
the weighted sum of the three per-source confidences. -/
def ensemble_confidence (hasSecondary : Bool) (ml dl pat : ℚ) : ℚ :=
  ml * (2/5) + dl * (if hasSecondary then 3/10 else 0) +
    pat * (if hasSecondary then 3/10 else 3/5)

/-- Embedding of `DocumentClassifier.validate_classification` (a static
method using the module-level thresholds). -/
def validate_classification (doc_type : String) (confidence : ℚ)
    (p_confidence : ℚ) : Bool × String :=
  if confidence < CLASSIFIER_CONFIDENCE_THRESHOLD then
    (false, "Confidence below threshold")
  else if ¬ (DOCUMENT_PATTERNS.map DocPattern.name).contains doc_type then
    (false, "Invalid document type")
  else if p_confidence < CLASSIFIER_CONFIDENCE_THRESHOLD - CLASSIFIER_ERROR_THRESHOLD then
    (false, "Pattern matching confidence too low")
  else (true, "Classification validated successfully")

/-- An input image, by its pixel grid; the payload pixels are an opaque
identifier consumed only by the model and OCR functions of the state. -/
structure Image where
  h : ℕ
  w : ℕ
  pixels : ℕ

/-- The classifier state: the configuration and loaded models of a
`DocumentClassifier` instance plus the deterministic external functions it
calls (OCR backend, cv2 layout analysis, model inference). -/
structure ClassifierState where
  ocr : Image → String × ℚ
  layout : Image → Option LayoutRaw
  mlPredict : List ℚ → List ℚ
  dlPredict : Option (Image → List ℚ)

/-- The classification metadata recorded by `classify_document`. -/
structure ClassMeta where
  ml_confidence : ℚ
  dl_confidence : ℚ
  p_confidence : ℚ
  e_confidence : ℚ
  validation_result : String

/-- Embedding of `DocumentClassifier.classify_document`: OCR the image,
extract features, score with the primary model (argmax), the optional
secondary model and the document patterns, combine with the ensemble
weights, and fail with `ValueError` when validation rejects.  Exceptions
from feature extraction and out-of-range type lookup propagate. -/
def classify_document (st : ClassifierState) (img : Image) :
    Except String (String × ℚ × ClassMeta) :=
  let tc := st.ocr img
  match extract_features img.h img.w tc.1 (st.layout img) with
  | Except.error e => Except.error e
  | Except.ok features =>
    let ml_prediction := st.mlPredict features
    let ml_class_idx := argmax ml_prediction
    let ml_conf := ml_prediction.getD ml_class_idx 0
    let dl_conf : ℚ :=
      match st.dlPredict with
      | none => 0
      | some f => let p := f img; p.getD (argmax p) 0
    let p_conf := pattern_confidence tc.1
    let final_conf := ensemble_confidence st.dlPredict.isSome ml_conf dl_conf p_conf
    match (DOCUMENT_PATTERNS.map DocPattern.name).get? ml_class_idx with
    | none => Except.error "IndexError"
    | some doc_type =>
      let v := validate_classification doc_type final_conf p_conf
      if v.1 then
        Except.ok (doc_type, final_conf, ⟨ml_conf, dl_conf, p_conf, final_conf, v.2⟩)
      else
        Except.error ("ValueError: Classification validation failed: " ++ v.2)

/-- The confidence component of a classification outcome, when any. -/
def runConf : Except String (String × ℚ × ClassMeta) → Option ℚ
  | Except.ok (_, c, _) => some c
  | Except.error _ => none

/-- The predicted-type component of a classification outcome, when any. -/
def runType : Except String (String × ℚ × ClassMeta) → Option String
  | Except.ok (t, _, _) => some t
  | Except.error _ => none

/-- Absolute difference of two optional confidences (`0` when either run
produced none). -/
def confGap : Option ℚ → Option ℚ → ℚ
  | some a, some b => |a - b|
  | _, _ => 0

/-- The feature vector produced for a sample 2-by-3 image with text
`ab` and no layout-analysis result (used to witness the fixed length). -/
def c8vec : List ℚ :=
  match extract_features 2 3 "ab" none with
  | Except.ok v => v
  | Except.error _ => []

/-! ## Supporting lemmas -/

/-- Converting an all-digit character list succeeds with the digit values. -/
theorem digitsOf_digits (l : List Char) (h : ∀ c ∈ l, c.isDigit) :
    digitsOf l = some (l.map fun c => c.toNat - 48) := by
  induction l with
  | nil => simp [digitsOf]
  | cons a t ih =>
    have ha : a.isDigit := h a (by simp)
    have ht := ih (fun c hc => h c (by simp [hc]))
    simp [digitsOf, charDigit?, ha, ht]

/-- The digit value of the i-th character of a string (0 when absent). -/
def digitVal (s : String) (i : ℕ) : ℕ :=
  (s.toList.map fun c => c.toNat - 48).getD i 0

/-- The three passes compose to the single combined substitution. -/
theorem subS5_subI1_subO0 (a : Char) : subS5 (subI1 (subO0 a)) = confusionSub a := by
  by_cases h1 : a = 'o' ∨ a = 'O' <;>
    by_cases h2 : a = 'i' ∨ a = 'I' ∨ a = 'l' <;>
      by_cases h3 : a = 's' ∨ a = 'S' <;>
        simp [subO0, subI1, subS5, confusionSub, h1, h2, h3]

/-! ## Claim theorems -/

/-- C1: the spec requires `Document.update_status` to reject every
transition outside the legal set (in particular any transition out of
`COMPLETED`) with `IllegalStatusTransition`, leaving the document
unchanged.  The code performs no transition validation: on a `COMPLETED`
document, `update_status("PENDING")` succeeds, overwrites the status and
appends an audit entry — contradicting the spec, the legal-transition set
implemented for the sibling `Application` model, and the method's own
docstring ("with transition validation"). -/
theorem c1_completed_transition_not_rejected :
    update_status completedDoc "PENDING" none none 1 =
      Except.ok ⟨"PENDING", 1, some 0, none,
        [⟨1, "status_update", "COMPLETED", "PENDING", none, none⟩]⟩ := by
  rfl

/-- C2: the ensemble confidence of `classify_document` is
`primary*0.4 + secondary*0.3 + pattern*0.3` when the secondary (DL) model
is configured, and `primary*0.4 + pattern*0.6` when it is absent (the code
initializes the secondary confidence to `0.0` in that case). -/
theorem c2_ensemble_weights (p s q : ℚ)
    (hp0 : 0 ≤ p) (hp1 : p ≤ 1) (hs0 : 0 ≤ s) (hs1 : s ≤ 1)
    (hq0 : 0 ≤ q) (hq1 : q ≤ 1) :
    ensemble_confidence true p s q = p * (2/5) + s * (3/10) + q * (3/10) ∧
    ensemble_confidence false p 0 q = p * (2/5) + q * (3/5) := by
  constructor <;> simp [ensemble_confidence]

/-- Witness for C2 at the spec's example: primary 0.9, secondary absent,
pattern 0.8 gives ensemble confidence 0.84. -/
theorem c2_witness :
    ((0:ℚ) ≤ 9/10 ∧ (9/10:ℚ) ≤ 1 ∧ (0:ℚ) ≤ 0 ∧ (0:ℚ) ≤ 1 ∧
      (0:ℚ) ≤ 4/5 ∧ (4/5:ℚ) ≤ 1) ∧
    ensemble_confidence false (9/10) 0 (4/5) = 84/100 := by
  refine ⟨by norm_num, ?_⟩
  rw [(c2_ensemble_weights (9/10) 0 (4/5) (by norm_num) (by norm_num)
    (by norm_num) (by norm_num) (by norm_num) (by norm_num)).2]
  norm_num

/-- C3: for a 9-digit routing number, `_validate_routing_number` accepts
iff the weighted ABA checksum `3*(d0+d3+d6) + 7*(d1+d4+d7) + (d2+d5+d8)`
is divisible by 10. -/
theorem c3_routing_checksum_iff (s : String)
    (h9 : s.toList.length = 9) (hd : ∀ c ∈ s.toList, c.isDigit) :
    (validate_routing_number s = true ↔
      (3 * (digitVal s 0 + digitVal s 3 + digitVal s 6) +
       7 * (digitVal s 1 + digitVal s 4 + digitVal s 7) +
       (digitVal s 2 + digitVal s 5 + digitVal s 8)) % 10 = 0) := by
  have hlen : (s.toList.map fun c => c.toNat - 48).length = 9 := by
    rw [List.length_map, h9]
  unfold validate_routing_number digitVal
  rw [digitsOf_digits s.toList hd]
  simp only [if_pos (le_of_eq hlen.symm)]
  exact beq_iff_eq

/-- Witness for C3: the valid ABA number 021000021 passes and 123456789
fails the checksum. -/
theorem c3_witness :
    ("021000021".toList.length = 9 ∧ validate_routing_number "021000021" = true) ∧
    validate_routing_number "123456789" = false := by
  refine ⟨⟨by decide, ?_⟩, by decide⟩
  exact (c3_routing_checksum_iff "021000021" (by decide) (by decide)).mpr (by decide)

/-- C9: classification is deterministic — `classify_document` is a pure
function of the classifier state (loaded models, OCR backend, patterns)
and the image; the source performs no random or time-dependent operation
on this path, so two runs with the same model state return the same
outcome, in particular the same predicted type, and their confidences
differ by 0, within the required 0.05 tolerance. -/
theorem c9_classification_deterministic (st : ClassifierState) (img : Image) :
    classify_document st img = classify_document st img ∧
    runType (classify_document st img) = runType (classify_document st img) ∧
    confGap (runConf (classify_document st img))
      (runConf (classify_document st img)) ≤ 1/20 := by
  refine ⟨rfl, rfl, ?_⟩
  cases h : runConf (classify_document st img) with
  | none => simp [confGap]
  | some c => simp [confGap]

/-- C10: the error-pattern substitutions of `extract_text` act on the
whole text as the combined character map (o,O to 0; i,I,l to 1; s,S to 5),
so the corrected text contains none of the seven source characters. -/
theorem c10_no_confusable_chars_remain (s : String) :
    (applyErrorCorrection s).toList = s.toList.map confusionSub ∧
    ∀ c ∈ (applyErrorCorrection s).toList,
      c ∉ (['o', 'O', 'i', 'I', 'l', 's', 'S'] : List Char) := by
  have hmap : (applyErrorCorrection s).toList = s.toList.map confusionSub := by
    show correctChars s.toList = _
    unfold correctChars
    rw [List.map_map, List.map_map]
    exact List.map_congr_left (fun a _ => subS5_subI1_subO0 a)
  refine ⟨hmap, ?_⟩
  intro c hc
  rw [hmap] at hc
  rcases List.mem_map.mp hc with ⟨a, _, rfl⟩
  unfold confusionSub
  by_cases h1 : a = 'o' ∨ a = 'O' <;>
    by_cases h2 : a = 'i' ∨ a = 'I' ∨ a = 'l' <;>
      by_cases h3 : a = 's' ∨ a = 'S' <;>
        simp_all

/-- Witness for C10 at a concrete corrected text ("so" becomes "50"). -/
theorem c10_witness :
    '5' ∈ (applyErrorCorrection "so").toList ∧
    '5' ∉ (['o', 'O', 'i', 'I', 'l', 's', 'S'] : List Char) := by
  refine ⟨by decide, ?_⟩
  exact (c10_no_confusable_chars_remain "so").2 '5' (by decide)

/-- C6 fails as stated: the code filters out only the undefined sentinel
and averages everything kept, including zero confidences, while the claim
averages only the positive ones.  On the backend output
`[0, 100]` (both defined) the code returns 50, the claim predicts 100. -/
theorem c6_counterexample :
    extract_confidence [some 0, some 100] = 50 ∧
    spec_positive_mean [some 0, some 100] = 100 ∧
    (50 : ℚ) ≠ 100 := by
  have e : ([some 0, some 100] : List (Option ℚ)).filterMap id = [0, 100] := rfl
  refine ⟨?_, ?_, by norm_num⟩
  · simp only [extract_confidence, e]
    norm_num [List.sum_cons, List.sum_nil]
  · simp only [spec_positive_mean, e]
    norm_num [List.filter_cons, List.filter_nil, List.sum_cons, List.sum_nil]

/-- C6 amended: the run confidence is the mean of all defined per-token
confidences (only the undefined-confidence sentinel is excluded, zeros are
kept), `0` when none is defined; it coincides with the positive-only mean
exactly when every defined confidence is positive. -/
theorem c6_amended (confs : List (Option ℚ)) :
    extract_confidence confs = spec_defined_mean confs ∧
    ((∀ c ∈ confs.filterMap id, 0 < c) →
      extract_confidence confs = spec_positive_mean confs) := by
  constructor
  · simp only [extract_confidence, spec_defined_mean, List.isEmpty_iff]
  · intro h
    have hfix : (confs.filterMap id).filter (fun c => decide (0 < c)) =
        confs.filterMap id := by
      apply List.filter_eq_self.mpr
      intro a ha
      exact decide_eq_true (h a ha)
    simp only [extract_confidence, spec_positive_mean, hfix]

/-- Witness for C6 amended, on a run whose defined confidences are all
positive (the sentinel entry is excluded). -/
theorem c6_witness :
    (∀ c ∈ ([some 80, none, some 100] : List (Option ℚ)).filterMap id, 0 < c) ∧
    extract_confidence [some 80, none, some 100] =
      spec_positive_mean [some 80, none, some 100] := by
  have e : ([some 80, none, some 100] : List (Option ℚ)).filterMap id =
      [80, 100] := by rfl
  have h : ∀ c ∈ ([some 80, none, some 100] : List (Option ℚ)).filterMap id,
      0 < c := by
    rw [e]
    intro c hc
    rcases List.mem_cons.mp hc with rfl | hc2
    · norm_num
    · rw [List.mem_singleton.mp hc2]
      norm_num
  exact ⟨h, (c6_amended [some 80, none, some 100]).2 h⟩

/-- C7 fails as stated: `_calculate_field_confidence` rounds the
discounted confidence to two decimal places (`round(base_confidence, 2)`),
so for a run confidence of 100/3 and a substring matching no confusion
class and containing no unusual character the field confidence is 33.33,
not the claimed bare product 100/3. -/
theorem c7_counterexample :
    errPatO "1234" = false ∧ errPatI "1234" = false ∧ errPatS "1234" = false ∧
    hasUnusualChar "1234" = false ∧
    calculate_field_confidence "1234" (100/3) true = 3333/100 ∧
    (3333/100 : ℚ) ≠ 100/3 := by
  refine ⟨by decide, by decide, by decide, by decide, ?_, by norm_num⟩
  have e1 : errPatO "1234" = false := by decide
  have e2 : errPatI "1234" = false := by decide
  have e3 : errPatS "1234" = false := by decide
  have e4 : hasUnusualChar "1234" = false := by decide
  simp only [calculate_field_confidence, e1, e2, e3, e4, if_true,
    Bool.false_eq_true, if_false]
  unfold round2 roundHalfEven
  have h1 : ((100 : ℚ)/3) * 100 = 10000/3 := by norm_num
  rw [h1]
  have h2 : ⌊(10000 : ℚ)/3⌋ = 3333 := by norm_num [Int.floor_eq_iff]
  rw [h2]
  norm_num

/-- C7 amended: under strict validation the field confidence equals the
OCR run confidence multiplied by 0.9 once per detected confusion class
and by 0.85 if an out-of-charset character occurs, **rounded to two
decimal places**; the field is marked validated iff this rounded
confidence reaches the configured threshold. -/
theorem c7_amended (v : String) (c th : ℚ) :
    calculate_field_confidence v c true =
      round2 (c * (9/10) ^ confusionClassCount v *
        (if hasUnusualChar v then 17/20 else 1)) ∧
    (field_validated v c th = true ↔ th ≤ calculate_field_confidence v c true) := by
  constructor
  · unfold calculate_field_confidence confusionClassCount
    by_cases h1 : errPatO v <;> by_cases h2 : errPatI v <;>
      by_cases h3 : errPatS v <;> by_cases h4 : hasUnusualChar v <;>
        simp only [h1, h2, h3, h4, if_true, if_false, Bool.false_eq_true] <;>
          norm_num <;> congr 1 <;> ring
  · simp [field_validated]

/-- Witness for C7 amended: a clean substring at run confidence 95 keeps
confidence 95 and is validated against threshold 95. -/
theorem c7_witness :
    calculate_field_confidence "1234" (95:ℚ) true =
      round2 (95 * (9/10) ^ confusionClassCount "1234" *
        (if hasUnusualChar "1234" then 17/20 else 1)) ∧
    field_validated "1234" (95:ℚ) 95 = true := by
  refine ⟨(c7_amended "1234" 95 95).1, (c7_amended "1234" 95 95).2.mpr ?_⟩
  have e1 : errPatO "1234" = false := by decide
  have e2 : errPatI "1234" = false := by decide
  have e3 : errPatS "1234" = false := by decide
  have e4 : hasUnusualChar "1234" = false := by decide
  have h : calculate_field_confidence "1234" (95:ℚ) true = 95 := by
    simp only [calculate_field_confidence, e1, e2, e3, e4, if_true,
      Bool.false_eq_true, if_false]
    unfold round2 roundHalfEven
    norm_num
  rw [h]

/-- C8 fails as stated: `extract_features` logs and **re-raises** on an
internal failure instead of returning a zero vector — on a zero-area
image the text-density division raises `ZeroDivisionError`, which
propagates to the caller. -/
theorem c8_counterexample :
    extract_features 0 100 "hello" (some ⟨2, 3, 100, 10⟩) =
      Except.error "ZeroDivisionError" := by
  rfl

/-- C8 amended: the degradation to a fixed-length zero vector happens in
the helper `_extract_layout_features` (zero vector of its fixed length 4,
matching the success shape), and successful feature extraction always
yields the fixed length 18; but a failure inside `extract_features`
itself (for instance a zero-area image) propagates as an exception
rather than degrading. -/
theorem c8_amended (h w : ℕ) (text : String) (cv : Option LayoutRaw) :
    (h * w = 0 → extract_features h w text cv = Except.error "ZeroDivisionError") ∧
    (∀ v, extract_features h w text cv = Except.ok v → v.length = 18) ∧
    extract_layout_features none = [0, 0, 0, 0] := by
  refine ⟨?_, ?_, rfl⟩
  · intro h0
    simp [extract_features, h0]
  · intro v hv
    by_cases h0 : h * w = 0
    · simp [extract_features, h0] at hv
    · simp only [extract_features, if_neg h0] at hv
      injection hv with hv
      rw [← hv]
      cases cv <;>
        simp [extract_layout_features, extract_content_features, DOCUMENT_PATTERNS]

/-- Witness for C8 amended: a zero-area image raises, a 2-by-3 image
yields the 18-entry vector, and the layout helper degrades to the
length-4 zero vector. -/
theorem c8_witness :
    extract_features 0 5 "x" none = Except.error "ZeroDivisionError" ∧
    extract_features 2 3 "ab" none = Except.ok c8vec ∧
    c8vec.length = 18 ∧
    extract_layout_features none = [0, 0, 0, 0] := by
  exact ⟨(c8_amended 0 5 "x" none).1 rfl, rfl,
    (c8_amended 2 3 "ab" none).2.1 c8vec rfl, (c8_amended 2 3 "ab" none).2.2⟩

/-- C4 fails as stated: `validate_fields` returns early when a required
field is missing, before any structural check runs.  With a routing
number failing its checksum and the account number missing, the report
contains **no** structural failure (the checksum error is not listed)
and the message names only the missing field. -/
theorem c4_counterexample :
    matchRoutingFormat "123456789" = true ∧
    validate_routing_number "123456789" = false ∧
    validate_fields ⟨some "123456789", none, some "First Bank"⟩ =
      ⟨false, VMessage.missingRequired ["account_number"], [], []⟩ := by
  refine ⟨by decide, by decide, rfl⟩

/-- C4 amended: (i) any missing required field makes `validate_fields`
fail fast: it returns at once, listing exactly the missing required
fields, with no structural check performed and an empty error list;
(ii) when every required field is present, the error list is exactly the
concatenation of every failing structural check of every field (routing
format/checksum, account format, bank-name format), all three fields are
recorded as validated-over, and the outcome is valid iff no check failed;
(iii) on an invalid outcome the status-marking step of `process` marks
the document FAILED, storing the message enumerating the failures as the
failure reason and audit-logging the transition. -/
theorem c4_amended :
    (∀ d : ExtractedData,
      REQUIRED_FIELDS.filter (fun f => ¬ hasField d f) ≠ [] →
      validate_fields d =
        ⟨false, VMessage.missingRequired
          (REQUIRED_FIELDS.filter (fun f => ¬ hasField d f)), [], []⟩) ∧
    (∀ r a b : String,
      (validate_fields ⟨some r, some a, some b⟩).validation_errors =
        routingErr r ++ accountErr a ++ bankErr b ∧
      (validate_fields ⟨some r, some a, some b⟩).fields_validated =
        REQUIRED_FIELDS ∧
      ((validate_fields ⟨some r, some a, some b⟩).valid = true ↔
        routingErr r ++ accountErr a ++ bankErr b = [])) ∧
    (∀ (doc : DocumentState) (vo : ValidationOutcome) (now : Nat),
      vo.valid = false →
      process_mark_status doc vo now =
        Except.ok ⟨"FAILED", now, doc.processed_at,
          some (vmessageText vo.message),
          doc.audit_log ++ [⟨now, "status_update", doc.status, "FAILED",
            some (vmessageText vo.message), none⟩]⟩) := by
  refine ⟨?_, ?_, ?_⟩
  · intro d hne
    have hcond : ¬ ((REQUIRED_FIELDS.filter
        (fun f => ¬ hasField d f)).isEmpty = true) :=
      fun h => hne (List.isEmpty_iff.mp h)
    simp only [validate_fields, if_pos hcond]
  · intro r a b
    have hmiss : REQUIRED_FIELDS.filter
        (fun f => ¬ hasField ⟨some r, some a, some b⟩ f) = [] := rfl
    by_cases hrf : matchRoutingFormat r <;>
      by_cases hrc : validate_routing_number r <;>
        by_cases haf : matchAccountFormat a <;>
          by_cases hb : matchBankName b <;>
            simp [validate_fields, REQUIRED_FIELDS, hasField, hmiss,
              routingErr, accountErr, bankErr, hrf, hrc, haf, hb]
  · intro doc vo now hv
    simp only [process_mark_status, hv, Bool.false_eq_true, if_false]
    rfl

/-- Witness for C4 amended at concrete inputs: account number missing
(fail fast, only the missing field listed), then all fields present with
routing number 123456789 (valid format, bad checksum) and account number
12AB3456 (bad format) — both failures listed — and the failing outcome
marking a PROCESSING document FAILED. -/
theorem c4_witness :
    validate_fields ⟨some "123456789", none, some "Second Bank"⟩ =
      ⟨false, VMessage.missingRequired ["account_number"], [], []⟩ ∧
    (validate_fields
      ⟨some "123456789", some "12AB3456", some "First Bank"⟩).validation_errors =
      ["Invalid routing number checksum", "Invalid account number format"] ∧
    (validate_fields
      ⟨some "123456789", some "12AB3456", some "First Bank"⟩).valid = false ∧
    process_mark_status ⟨"PROCESSING", 0, none, none, []⟩
      ⟨false, VMessage.failed
        ["Invalid routing number checksum", "Invalid account number format"],
        REQUIRED_FIELDS,
        ["Invalid routing number checksum", "Invalid account number format"]⟩ 1 =
      Except.ok ⟨"FAILED", 1, none,
        some (vmessageText (VMessage.failed
          ["Invalid routing number checksum", "Invalid account number format"])),
        [⟨1, "status_update", "PROCESSING", "FAILED",
          some (vmessageText (VMessage.failed
            ["Invalid routing number checksum", "Invalid account number format"])),
          none⟩]⟩ := by
  have hb := c4_amended.2.1 "123456789" "12AB3456" "First Bank"
  refine ⟨c4_amended.1 ⟨some "123456789", none, some "Second Bank"⟩ (by decide),
    ?_, ?_, c4_amended.2.2 ⟨"PROCESSING", 0, none, none, []⟩ _ 1 rfl⟩
  · rw [hb.1]
    decide
  · cases hvb : (validate_fields
        ⟨some "123456789", some "12AB3456", some "First Bank"⟩).valid with
    | false => rfl
    | true => exact absurd (hb.2.2.mp hvb) (by decide)

/-- `setKey` with a key absent from the dict appends the binding. -/
theorem setKey_fresh (l : List (String × PyVal)) (k : String) (v : PyVal)
    (h : k ∉ l.map Prod.fst) : setKey l k v = l ++ [(k, v)] := by
  induction l with
  | nil => rfl
  | cons p t ih =>
    obtain ⟨k0, v0⟩ := p
    simp only [List.map_cons, List.mem_cons] at h
    push_neg at h
    simp [setKey, Ne.symm h.1, ih h.2]

/-- The sanitizer loop over fields with pairwise-distinct keys not yet in
the accumulator dict appends each field with its stored value. -/
theorem sanitize_fold (enc : String → String) (data : List (String × PyVal)) :
    ∀ (acc : List (String × PyVal)) (aud : List String),
    (data.map Prod.fst).Nodup →
    (∀ f ∈ data.map Prod.fst, f ∉ acc.map Prod.fst) →
    (data.foldl (sanitizeStep enc) (acc, aud)).1 =
      acc ++ data.map (fun fv => (fv.1, sanVal enc fv)) := by
  induction data with
  | nil => intro acc aud _ _; simp
  | cons fv t ih =>
    intro acc aud hnd hdisj
    have hfv : fv.1 ∉ acc.map Prod.fst := hdisj fv.1 (by simp)
    have hstep : sanitizeStep enc (acc, aud) fv =
        (acc ++ [(fv.1, sanVal enc fv)], (sanitizeStep enc (acc, aud) fv).2) := by
      by_cases hsv : isSensitiveField fv.1 <;>
        simp [sanitizeStep, sanVal, hsv, setKey_fresh _ _ _ hfv]
    rw [List.foldl_cons, hstep,
      ih (acc ++ [(fv.1, sanVal enc fv)]) _ (by simpa using hnd.of_cons) ?_]
    · simp
    · intro f hf
      simp only [List.map_append, List.map_cons] at *
      intro hcon
      rcases List.mem_append.mp hcon with hl | hr
      · exact hdisj f (List.mem_cons_of_mem _ hf) hl
      · simp at hr
        rcases List.nodup_cons.mp hnd with ⟨hni, _⟩
        exact hni (hr ▸ hf)

/-- Looking up a key different from the one assigned by `setKey` sees the
original dict. -/
theorem lookup_setKey_ne (l : List (String × PyVal)) (k : String) (v : PyVal)
    (f : String) (h : f ≠ k) : (setKey l k v).lookup f = l.lookup f := by
  induction l with
  | nil => simp [setKey, List.lookup, beq_eq_false_iff_ne.mpr h]
  | cons p t ih =>
    obtain ⟨k0, v0⟩ := p
    by_cases he : k0 = k
    · subst he
      simp [setKey, List.lookup, beq_eq_false_iff_ne.mpr h]
    · by_cases hf : f = k0
      · subst hf
        simp [setKey, he, List.lookup]
      · simp [setKey, he, List.lookup, beq_eq_false_iff_ne.mpr hf, ih]

/-- Looking up an input field in the per-field image of the sanitizer
loop returns its stored value (keys pairwise distinct). -/
theorem lookup_map_san (enc : String → String) (data : List (String × PyVal))
    (hnd : (data.map Prod.fst).Nodup) (f : String) (v : PyVal)
    (hmem : (f, v) ∈ data) :
    (data.map (fun fv => (fv.1, sanVal enc fv))).lookup f =
      some (sanVal enc (f, v)) := by
  induction data with
  | nil => simp at hmem
  | cons p t ih =>
    rcases List.mem_cons.mp hmem with rfl | hm
    · simp [List.lookup]
    · rw [List.map_cons] at hnd
      rcases List.nodup_cons.mp hnd with ⟨hni, hnt⟩
      have hf : f ∈ t.map Prod.fst := List.mem_map.mpr ⟨(f, v), hm, rfl⟩
      have hne : f ≠ p.1 := fun e => hni (e ▸ hf)
      have hb : (f == p.1) = false := beq_eq_false_iff_ne.mpr hne
      simp [List.lookup, hb, ih hnt hm]

/-- C5 fails as stated: the sanitizer always assigns the reserved keys
`_audit` and `_sanitized_at` after the loop, so an input field named
`_audit` — which matches no sensitive substring — is overwritten with the
audit list instead of passing through unchanged. -/
theorem c5_counterexample :
    isSensitiveField "_audit" = false ∧
    (sanitize_sensitive_data id [("_audit", PyVal.str "x")]).lookup "_audit" =
      some (PyVal.auditLog []) ∧
    some (PyVal.auditLog []) ≠ some (PyVal.str "x") := by
  refine ⟨by decide, by decide, by decide⟩

/-- C5 amended: provided the input contains no field named `_audit` or
`_sanitized_at` (reserved keys that the sanitizer overwrites with audit
metadata), every sensitive-named field is replaced by the encrypted
representation of its value, every other field passes through with its
value unchanged, and no input field is dropped (its key still resolves in
the output). -/
theorem c5_amended (enc : String → String) (data : List (String × PyVal))
    (hnd : (data.map Prod.fst).Nodup)
    (ha : "_audit" ∉ data.map Prod.fst)
    (hs : "_sanitized_at" ∉ data.map Prod.fst) :
    ∀ f v, (f, v) ∈ data →
      (isSensitiveField f = true →
        (sanitize_sensitive_data enc data).lookup f =
          some (PyVal.encStr (enc (pyStr v)))) ∧
      (isSensitiveField f = false →
        (sanitize_sensitive_data enc data).lookup f = some v) := by
  intro f v hmem
  have hfkeys : f ∈ data.map Prod.fst := List.mem_map.mpr ⟨(f, v), hmem, rfl⟩
  have hfa : f ≠ "_audit" := fun e => ha (e ▸ hfkeys)
  have hfs : f ≠ "_sanitized_at" := fun e => hs (e ▸ hfkeys)
  have hfold := sanitize_fold enc data [] [] hnd (by simp)
  have hout : (sanitize_sensitive_data enc data).lookup f =
      (data.map (fun fv => (fv.1, sanVal enc fv))).lookup f := by
    simp only [sanitize_sensitive_data]
    rw [lookup_setKey_ne _ _ _ f hfs, lookup_setKey_ne _ _ _ f hfa,
      hfold, List.nil_append]
  rw [hout, lookup_map_san enc data hnd f v hmem]
  constructor
  · intro hsens; simp [sanVal, hsens]
  · intro hsens; simp [sanVal, hsens]

/-- Witness for C5 amended on the spec example: `account_number` is
encrypted, `business_name` passes through unchanged. -/
theorem c5_witness :
    isSensitiveField "account_number" = true ∧
    isSensitiveField "business_name" = false ∧
    (sanitize_sensitive_data id
      [("account_number", PyVal.str "12345678"),
       ("business_name", PyVal.str "Acme")]).lookup "account_number" =
      some (PyVal.encStr "12345678") ∧
    (sanitize_sensitive_data id
      [("account_number", PyVal.str "12345678"),
       ("business_name", PyVal.str "Acme")]).lookup "business_name" =
      some (PyVal.str "Acme") := by
  refine ⟨by decide, by decide, ?_, ?_⟩
  · exact (c5_amended id
      [("account_number", PyVal.str "12345678"), ("business_name", PyVal.str "Acme")]
      (by decide) (by decide) (by decide) "account_number"
      (PyVal.str "12345678") (by decide)).1 (by decide)
  · exact (c5_amended id
      [("account_number", PyVal.str "12345678"), ("business_name", PyVal.str "Acme")]
      (by decide) (by decide) (by decide) "business_name"
      (PyVal.str "Acme") (by decide)).2 (by decide)
